import Mathlib

/-!
# etcd-operator: event reconciliation of `pkg/controller/controller.go`

A shallow embedding of `Controller.handleClusterEvent`,
`Controller.cleanupClusterResources`, `Controller.makeClusterConfig` and
`getNamespacedName`, and of the fatal-error classifier `isFatalError` of
`pkg/cluster/error.go`.

* Go strings are `String`; in the controller a Go `error` is `Option String`
  (`none` is `nil`, `some msg` is an error whose `Error()` text is `msg`); for
  the classifier, which looks at the type of an error, it is `Option GoError`.
* The registry `map[string]*cluster.Cluster` is an association list with
  unique keys (`AList`); a `*cluster.Cluster` pointer is a `ClusterPtr`.
* Calls to collaborators (Cluster Manager, Kubernetes API, resource store) are
  appended to a trace `State.calls`; what a collaborator answers is given by
  the environment `Env`, as a function of the trace so far and of the call.
* The event object is a pointer in Go: the resource as it stands when the
  function returns is part of the outcome.
-/

namespace EtcdOperator

/-! ## Data model -/

/-- The watch event type `kwatch.EventType`, a Go string type. -/
abbrev EventType := String

/-- The constant `kwatch.Added`. -/
def Added : EventType := "ADDED"
/-- The constant `kwatch.Modified`. -/
def Modified : EventType := "MODIFIED"
/-- The constant `kwatch.Deleted`. -/
def Deleted : EventType := "DELETED"

/-- The constant `api.FailurePolicyRecreate`. -/
def FailurePolicyRecreate : String := "Recreate"

/-- The constant `api.ClusterPhaseFailed`. -/
def ClusterPhaseFailed : String := "Failed"

/-- The spec of a cluster resource: the failure policy and domain fields. -/
structure ClusterSpec where
  FailurePolicy : String
  Size : Int
  Repository : String
  Version : String
deriving DecidableEq

/-- The status of a cluster resource, `api.ClusterStatus`. -/
structure ClusterStatus where
  Phase : String
  Reason : String
  Size : Int
deriving DecidableEq

/-- The zero value `api.ClusterStatus{}`. -/
def ClusterStatus.empty : ClusterStatus := { Phase := "", Reason := "", Size := 0 }

/-- Modelled from the spec: `ClusterStatus.IsFailed` is declared outside the
source at hand; the status is failed when its phase is Failed. -/
def ClusterStatus.IsFailed (s : ClusterStatus) : Bool := s.Phase == ClusterPhaseFailed

/-- The cluster resource `api.EtcdCluster`. -/
structure EtcdCluster where
  Namespace : String
  Name : String
  Spec : ClusterSpec
  Status : ClusterStatus
deriving DecidableEq

/-- A watch event: `Event` of the controller package (its field `Type` is `Typ`). -/
structure Event where
  Typ : EventType
  Object : EtcdCluster
deriving DecidableEq

/-- The controller configuration `Config` (client handles are represented by
the environment). -/
structure Config where
  Namespace : String
  ClusterWide : Bool
  ServiceAccount : String
  CreateCRD : Bool
  RecoverQuorumLoss : Bool
deriving DecidableEq

/-- The Cluster Manager configuration `cluster.Config`. -/
structure ClusterConfig where
  ServiceAccount : String
  RecoverQuorumLoss : Bool
deriving DecidableEq

/-- A pointer to a Cluster Manager, `*cluster.Cluster`. -/
abbrev ClusterPtr := Nat

/-- The registry `map[string]*cluster.Cluster`. -/
abbrev Registry := AList (fun _ : String => ClusterPtr)

/-- A call made to a collaborator. -/
inductive Call where
  | clusterNew (cfg : ClusterConfig) (clus : EtcdCluster)
  | clusterUpdate (inst : ClusterPtr) (clus : EtcdCluster)
  | clusterDelete (inst : ClusterPtr)
  | deletePodDisruptionBudget (ns name : String) (gracePeriod : Int)
  | deletePodCollection (ns : String) (gracePeriod : Int) (labelSelector : String)
  | deleteService (ns name : String) (gracePeriod : Int)
  | updateEtcdCluster (ns : String) (clus : EtcdCluster)
deriving DecidableEq

/-- The bookkeeping counters of the controller package. -/
structure Metrics where
  clustersTotal : Int
  clustersCreated : Int
  clustersModified : Int
  clustersDeleted : Int
  clustersFailed : Int
deriving DecidableEq

/-- Log levels used by the controller. -/
inductive LogLevel where
  | info
  | error
deriving DecidableEq

/-- The mutable state: the registry of the controller, the package counters,
the trace of collaborator calls and the log. -/
structure State where
  clusters : Registry
  metrics : Metrics
  calls : List Call
  logs : List (LogLevel × String)

/-- What is outside the source at hand: the ownership test, defaulting and
validation of the resource schema, the Cluster Manager constructor, and the
answers of the Kubernetes API and of the resource store. -/
structure Env where
  cfg : Config
  /-- The method `Controller.managed`, taken as a predicate of the resource. -/
  managed : EtcdCluster → Bool
  /-- Modelled from the spec: `EtcdCluster.SetDefaults` fills unset fields of
  the resource spec. -/
  setDefaults : ClusterSpec → ClusterSpec
  /-- The method `ClusterSpec.Validate`: `none` when the spec is valid. -/
  validate : ClusterSpec → Option String
  /-- The constructor `cluster.New`: `none` is the nil pointer. -/
  clusterNew : List Call → ClusterConfig → EtcdCluster → Option ClusterPtr
  /-- The error answered to an API call, given the calls made before it. -/
  apiError : List Call → Call → Option String
  /-- The constant `k8sutil.MaxNameLength`. -/
  maxNameLength : Nat
  /-- The function `k8sutil.ClientServiceName`. -/
  clientServiceName : String → String

/-- The variable `terminationGracePeriod`. -/
def terminationGracePeriod : Int := 5

/-- The constructor `New`. -/
def New : State :=
  { clusters := ∅
    metrics := { clustersTotal := 0, clustersCreated := 0, clustersModified := 0,
                 clustersDeleted := 0, clustersFailed := 0 }
    calls := []
    logs := [] }

/-- The function `getNamespacedName`: `fmt.Sprintf("%s%c%s", ns, '/', name)`. -/
def getNamespacedName (c : EtcdCluster) : String :=
  c.Namespace ++ "/" ++ c.Name

/-- The method `EtcdCluster.SetDefaults`. -/
def EtcdCluster.SetDefaults (env : Env) (c : EtcdCluster) : EtcdCluster :=
  { c with Spec := env.setDefaults c.Spec }

/-- The method `Controller.makeClusterConfig`. -/
def makeClusterConfig (env : Env) : ClusterConfig :=
  { ServiceAccount := env.cfg.ServiceAccount
    RecoverQuorumLoss := env.cfg.RecoverQuorumLoss }

/-- Append a line to the log. -/
def State.log (st : State) (lvl : LogLevel) (msg : String) : State :=
  { st with logs := st.logs ++ [(lvl, msg)] }

/-- Make an API call: the answer is read from the environment at the trace so
far, and the call is appended to the trace. -/
def State.api (env : Env) (st : State) (c : Call) : State × Option String :=
  ({ st with calls := st.calls ++ [c] }, env.apiError st.calls c)

/-- A call to a Cluster Manager method without return value. -/
def State.tell (st : State) (c : Call) : State :=
  { st with calls := st.calls ++ [c] }

/-- The statement `if err != nil { errs = append(errs, err.Error()) }`. -/
def appendErr (errs : List String) (err : Option String) : List String :=
  match err with
  | some m => errs ++ [m]
  | none => errs

/-- The method `Controller.cleanupClusterResources`. -/
def cleanupClusterResources (env : Env) (st : State) (clus : EtcdCluster) :
    State × Option String :=
  let errs : List String := []
  -- pod disruption budget
  let (st, err) := st.api env
    (.deletePodDisruptionBudget clus.Namespace clus.Name terminationGracePeriod)
  let errs := appendErr errs err
  -- etcd cluster member pods
  let (st, err) := st.api env
    (.deletePodCollection clus.Namespace terminationGracePeriod ("etcd_cluster=" ++ clus.Name))
  let errs := appendErr errs err
  -- peer service
  let (st, err) := st.api env
    (.deleteService clus.Namespace clus.Name terminationGracePeriod)
  let errs := appendErr errs err
  -- client service
  let (st, err) := st.api env
    (.deleteService clus.Namespace (env.clientServiceName clus.Name) terminationGracePeriod)
  let errs := appendErr errs err
  if errs.length > 0 then
    (st, some (String.intercalate ", " errs))
  else
    (st, none)

/-- What `handleClusterEvent` leaves behind: the state, the event object as
it stands on return, and the two return values. -/
structure Outcome where
  state : State
  object : EtcdCluster
  ignored : Bool
  err : Option String

/-- The method `Controller.handleClusterEvent`. -/
def handleClusterEvent (env : Env) (st : State) (event : Event) : Outcome :=
  let clus := event.Object
  if !env.managed clus then
    { state := st, object := clus, ignored := true, err := none }
  else if clus.Status.IsFailed then
    if clus.Spec.FailurePolicy = FailurePolicyRecreate then
      let st := st.log .info "deleting cluster due to failurePolicy=Recreate"
      let st :=
        match st.clusters.lookup (getNamespacedName clus) with
        | some inst =>
          let st := st.tell (.clusterDelete inst)
          { st with metrics := { st.metrics with clustersTotal := st.metrics.clustersTotal - 1 } }
        | none => st
      let st := { st with clusters := st.clusters.erase (getNamespacedName clus) }
      let st := st.log .info "cleaning up cluster resources"
      let (st, err) := cleanupClusterResources env st clus
      let st :=
        match err with
        | some m => st.log .error ("unable to cleanup cluster resources: " ++ m)
        | none => st
      -- reset cluster status
      let clus := { clus with Status := ClusterStatus.empty }
      let (st, err) := st.api env (.updateEtcdCluster clus.Namespace clus)
      match err with
      | some m =>
        { state := st.log .error m, object := clus, ignored := false, err := some m }
      | none =>
        { state := st, object := clus, ignored := false, err := none }
    else
      let st := { st with metrics := { st.metrics with clustersFailed := st.metrics.clustersFailed + 1 } }
      if event.Typ = Deleted then
        { state := { st with clusters := st.clusters.erase (getNamespacedName clus) }
          object := clus, ignored := false, err := none }
      else
        { state := st, object := clus, ignored := false
          err := some ("ignore failed cluster (" ++ clus.Name ++ "). Please delete its CR") }
  else
    let clus := clus.SetDefaults env
    match env.validate clus.Spec with
    | some m =>
      { state := st, object := clus, ignored := false
        err := some ("invalid cluster spec. please fix the following problem with the cluster spec: " ++ m) }
    | none =>
      if event.Typ = Added then
        if (st.clusters.lookup (getNamespacedName clus)).isSome then
          { state := st, object := clus, ignored := false
            err := some ("unsafe state. cluster (" ++ clus.Name
              ++ ") was created before but we received event (" ++ event.Typ ++ ")") }
        else
          let nc := env.clusterNew st.calls (makeClusterConfig env) clus
          let st := st.tell (.clusterNew (makeClusterConfig env) clus)
          match nc with
          | none =>
            { state := st, object := clus, ignored := false
              err := some ("cluster name cannot be more than " ++ toString env.maxNameLength
                ++ " characters long, please delete the CR") }
          | some nc =>
            let st := { st with clusters := st.clusters.insert (getNamespacedName clus) nc }
            let st := { st with metrics :=
              { st.metrics with clustersCreated := st.metrics.clustersCreated + 1
                                clustersTotal := st.metrics.clustersTotal + 1 } }
            { state := st, object := clus, ignored := false, err := none }
      else if event.Typ = Modified then
        match st.clusters.lookup (getNamespacedName clus) with
        | none =>
          { state := st, object := clus, ignored := false
            err := some ("unsafe state. cluster (" ++ clus.Name
              ++ ") was never created but we received event (" ++ event.Typ ++ ")") }
        | some inst =>
          let st := st.tell (.clusterUpdate inst clus)
          let st := { st with metrics :=
            { st.metrics with clustersModified := st.metrics.clustersModified + 1 } }
          { state := st, object := clus, ignored := false, err := none }
      else if event.Typ = Deleted then
        match st.clusters.lookup (getNamespacedName clus) with
        | none =>
          { state := st, object := clus, ignored := false
            err := some ("unsafe state. cluster (" ++ clus.Name
              ++ ") was never created but we received event (" ++ event.Typ ++ ")") }
        | some inst =>
          let st := st.tell (.clusterDelete inst)
          let st := { st with clusters := st.clusters.erase (getNamespacedName clus) }
          let st := { st with metrics :=
            { st.metrics with clustersDeleted := st.metrics.clustersDeleted + 1
                              clustersTotal := st.metrics.clustersTotal - 1 } }
          { state := st, object := clus, ignored := false, err := none }
      else
        { state := st, object := clus, ignored := false, err := none }

/-! ## Concrete inputs -/

/-- An environment in which everything in namespace `ns1` is managed, a
negative size is invalid, and names longer than 52 characters are refused by
the Cluster Manager constructor. -/
def demoEnv : Env :=
  { cfg := { Namespace := "ns1", ClusterWide := false, ServiceAccount := "default",
             CreateCRD := true, RecoverQuorumLoss := false }
    managed := fun c => c.Namespace == "ns1"
    setDefaults := fun s => if s.Size = 0 then { s with Size := 3 } else s
    validate := fun s => if s.Size < 0 then some "spec.size is negative" else none
    clusterNew := fun calls _ c => if c.Name.length > 52 then none else some calls.length
    apiError := fun _ _ => none
    maxNameLength := 52
    clientServiceName := fun n => n ++ "-client" }

/-- A healthy resource `ns1/db1` with a valid spec. -/
def db1 : EtcdCluster :=
  { Namespace := "ns1", Name := "db1"
    Spec := { FailurePolicy := "Manual", Size := 3, Repository := "", Version := "3.5.0" }
    Status := { Phase := "Running", Reason := "", Size := 3 } }

/-- A state whose registry holds `ns1/db1`. -/
def stateWithDb1 : State := { New with clusters := (∅ : Registry).insert "ns1/db1" 7 }

/-- The four deletions of `cleanupClusterResources`, in the order in which
they are issued. -/
def cleanupCalls (env : Env) (clus : EtcdCluster) : List Call :=
  [ .deletePodDisruptionBudget clus.Namespace clus.Name terminationGracePeriod,
    .deletePodCollection clus.Namespace terminationGracePeriod ("etcd_cluster=" ++ clus.Name),
    .deleteService clus.Namespace clus.Name terminationGracePeriod,
    .deleteService clus.Namespace (env.clientServiceName clus.Name) terminationGracePeriod ]

/-- The call `inst.Delete()` of the Recreate path: made when the key is registered. -/
def recreateDeleteCalls (st : State) (clus : EtcdCluster) : List Call :=
  match st.clusters.lookup (getNamespacedName clus) with
  | some inst => [.clusterDelete inst]
  | none => []

/-- The text `needle` occurs in `s`. -/
def Contains (s needle : String) : Prop :=
  ∃ pre post : String, s = pre ++ needle ++ post

/-- The resource `ns1/db1` with a spec that does not validate. -/
def db1Invalid : EtcdCluster := { db1 with Spec := { db1.Spec with Size := -1 } }

/-- The resource `ns1/db1` as failed, with the given failure policy. -/
def db1Failed (policy : String) : EtcdCluster :=
  { db1 with Spec := { db1.Spec with FailurePolicy := policy }
             Status := { Phase := "Failed", Reason := "quorum was lost", Size := 0 } }

/-- A resource outside the managed namespace. -/
def foreignDb : EtcdCluster := { db1 with Namespace := "other" }

/-- A resource whose name is too long for the Cluster Manager constructor. -/
def longNameDb : EtcdCluster :=
  { db1 with Name := "a-cluster-name-that-is-much-longer-than-fifty-two-characters" }

/-- Events handled one after another, each on the state left by the previous one. -/
def handleEvents (env : Env) (st : State) : List Event → State
  | [] => st
  | e :: es => handleEvents env (handleClusterEvent env st e).state es

/-- Per-key ordering of an event sequence: every Modified or Deleted event is
preceded by an Added event for the same key. -/
def PerKeyOrdered (evs : List Event) : Prop :=
  ∀ pre e post, evs = pre ++ e :: post → (e.Typ = Modified ∨ e.Typ = Deleted) →
    ∃ a ∈ pre, a.Typ = Added ∧ getNamespacedName a.Object = getNamespacedName e.Object

/-- An Added event is accepted in state `st`: it is handled on a non-Failed
resource with result `(false, nil)`. -/
def AcceptedAdded (env : Env) (st : State) (e : Event) : Prop :=
  e.Typ = Added ∧ e.Object.Status.IsFailed = false ∧
  (handleClusterEvent env st e).ignored = false ∧ (handleClusterEvent env st e).err = none

/-- An event that is a Deleted event or a Failed-status event with policy Recreate. -/
def DeletedOrRecreate (e : Event) : Prop :=
  e.Typ = Deleted ∨
  (e.Object.Status.IsFailed = true ∧ e.Object.Spec.FailurePolicy = FailurePolicyRecreate)

/-- An event that passes the guards in front of a registry removal: the
resource is managed, and either it is Failed with policy Recreate, or the
event is Deleted on a resource that is Failed or whose defaulted spec validates. -/
def RemovalEvent (env : Env) (e : Event) : Prop :=
  env.managed e.Object = true ∧
  ((e.Object.Status.IsFailed = true ∧ e.Object.Spec.FailurePolicy = FailurePolicyRecreate) ∨
   (e.Typ = Deleted ∧ (e.Object.Status.IsFailed = true ∨
      env.validate (env.setDefaults e.Object.Spec) = none)))

/-- Some Added event for key `k` was accepted, when the sequence `evs` is
handled from state `st`, and no later event of the sequence for `k` is a
`removal` event. -/
def AddedAndKept (env : Env) (st : State) (removal : Event → Prop) (k : String)
    (evs : List Event) : Prop :=
  ∃ pre e post, evs = pre ++ e :: post ∧ getNamespacedName e.Object = k ∧
    AcceptedAdded env (handleEvents env st pre) e ∧
    ∀ x ∈ post, getNamespacedName x.Object = k → ¬ removal x

/-- An Added event for `ns1/db1` followed by a Deleted event for the same key
whose spec does not validate. -/
def addedThenInvalidDeleted : List Event := [⟨Added, db1⟩, ⟨Deleted, db1Invalid⟩]

/-! ## The fatal-error classifier of `pkg/cluster/error.go` -/

/-- The type `fatalError`. -/
structure fatalError where
  reason : String
deriving DecidableEq

/-- The method `fatalError.Error`. -/
def fatalError.Error (fe : fatalError) : String := fe.reason

/-- The function `newFatalError`. -/
def newFatalError (reason : String) : fatalError := { reason := reason }

/-- A non-nil Go `error` value, as far as `isFatalError` can tell values apart:
a `*fatalError`, an error of another type without a `Cause` method (such as
the value made by `errors.New`), an error whose `Cause` method returns a
non-nil error, and an error whose `Cause` method returns nil. The interface
value `error` is `Option GoError`, `none` being nil. -/
inductive GoError where
  | fatal (fe : fatalError)
  | plain (msg : String)
  | withCause (msg : String) (cause : GoError)
  | nilCause (msg : String)
deriving DecidableEq

/-- The variable `errCreatingCluster`, made by `errors.New`. -/
def errCreatingCluster : GoError := .plain "cluster failed to be created"

/-- The variable `errQuorumLost`. -/
def errQuorumLost : fatalError := newFatalError "quorum was lost"

/-- The loop of `errors.Cause` of `github.com/pkg/errors` on a non-nil error:
while the error has a `Cause` method, replace it by what the method returns. -/
def causeLoop : GoError → Option GoError
  | .fatal fe => some (.fatal fe)
  | .plain m => some (.plain m)
  | .withCause _ c => causeLoop c
  | .nilCause _ => none

/-- The function `errors.Cause` of `github.com/pkg/errors`. -/
def Cause : Option GoError → Option GoError
  | none => none
  | some e => causeLoop e

/-- The function `isFatalError`: a type switch on `errors.Cause(err)`. -/
def isFatalError (err : Option GoError) : Bool :=
  match Cause err with
  | some (.fatal _) => true
  | _ => false

/-- The root cause of an error, in the words of the specification: follow the
cause chain until an error that carries no cause. -/
def rootCause : GoError → GoError
  | .withCause _ c => rootCause c
  | e => e

/-- The error `e` wrapped in cause-carrying wrappers, one for each message of
the list, the head of the list being the outermost wrapper. -/
def wrapAll : List String → GoError → GoError
  | [], e => e
  | m :: ms, e => .withCause m (wrapAll ms e)

/-- The answers of the API to the four deletions of `cleanupClusterResources`
issued from state `st`, in the order of the attempts. -/
def cleanupAnswers (env : Env) (st : State) (clus : EtcdCluster) : List (Option String) :=
  [ env.apiError st.calls
      (.deletePodDisruptionBudget clus.Namespace clus.Name terminationGracePeriod),
    env.apiError
      (st.calls ++ [.deletePodDisruptionBudget clus.Namespace clus.Name terminationGracePeriod])
      (.deletePodCollection clus.Namespace terminationGracePeriod ("etcd_cluster=" ++ clus.Name)),
    env.apiError
      (st.calls ++ [.deletePodDisruptionBudget clus.Namespace clus.Name terminationGracePeriod]
        ++ [.deletePodCollection clus.Namespace terminationGracePeriod
              ("etcd_cluster=" ++ clus.Name)])
      (.deleteService clus.Namespace clus.Name terminationGracePeriod),
    env.apiError
      (st.calls ++ [.deletePodDisruptionBudget clus.Namespace clus.Name terminationGracePeriod]
        ++ [.deletePodCollection clus.Namespace terminationGracePeriod
              ("etcd_cluster=" ++ clus.Name)]
        ++ [.deleteService clus.Namespace clus.Name terminationGracePeriod])
      (.deleteService clus.Namespace (env.clientServiceName clus.Name) terminationGracePeriod) ]

/-- The environment `demoEnv` with an API that refuses every service deletion
and every store update. -/
def failingEnv : Env :=
  { demoEnv with
    apiError := fun _ c =>
      match c with
      | .deleteService _ name _ => some ("service " ++ name ++ " not found")
      | .updateEtcdCluster _ _ => some "conflict"
      | _ => none }

/-- A resource of namespace `a/b` and name `c`. -/
def slashNamespaceDb : EtcdCluster := { db1 with Namespace := "a/b", Name := "c" }

/-- A resource of namespace `a` and name `b/c`. -/
def slashNameDb : EtcdCluster := { db1 with Namespace := "a", Name := "b/c" }

/-- An Added event for `ns1/db1`, then a Deleted event for it that carries the
status Failed and the policy `policy`. -/
def addedThenFailedDeleted (policy : String) : List Event :=
  [⟨Added, db1⟩, ⟨Deleted, db1Failed policy⟩]

/-! ## Theorems -/

theorem added_ne_modified : Added ≠ Modified := by decide
theorem added_ne_deleted : Added ≠ Deleted := by decide
theorem modified_ne_deleted : Modified ≠ Deleted := by decide

@[simp] theorem getNamespacedName_SetDefaults (env : Env) (c : EtcdCluster) :
    getNamespacedName (c.SetDefaults env) = getNamespacedName c := rfl

@[simp] theorem SetDefaults_Spec (env : Env) (c : EtcdCluster) :
    (c.SetDefaults env).Spec = env.setDefaults c.Spec := rfl

/-- C1: on a managed, non-Failed resource whose defaulted spec validates, an
Added event for a key already in the registry, and a Modified or Deleted event
for a key not in the registry, return `(false, err)` with a non-nil error, and
leave the registry and the trace of collaborator calls as they were. -/
theorem C1_invariant_violation (env : Env) (st : State) (event : Event)
    (hm : env.managed event.Object = true)
    (hf : event.Object.Status.IsFailed = false)
    (hv : env.validate (env.setDefaults event.Object.Spec) = none)
    (h : (event.Typ = Added ∧ getNamespacedName event.Object ∈ st.clusters) ∨
         ((event.Typ = Modified ∨ event.Typ = Deleted) ∧
            getNamespacedName event.Object ∉ st.clusters)) :
    (handleClusterEvent env st event).ignored = false ∧
    (handleClusterEvent env st event).err ≠ none ∧
    (handleClusterEvent env st event).state.clusters = st.clusters ∧
    (handleClusterEvent env st event).state.calls = st.calls := by
  rcases h with ⟨ht, hk⟩ | ⟨ht | ht, hk⟩
  · have hk2 := AList.lookup_isSome.mpr hk
    simp [handleClusterEvent, hm, hf, hv, ht, hk2]
  · have hk2 := AList.lookup_eq_none.mpr hk
    simp [handleClusterEvent, hm, hf, hv, ht, hk2, added_ne_modified.symm]
  · have hk2 := AList.lookup_eq_none.mpr hk
    simp [handleClusterEvent, hm, hf, hv, ht, hk2, added_ne_deleted.symm,
      modified_ne_deleted.symm]

/-- C1 at a concrete input: a second Added for `ns1/db1`. -/
theorem C1_invariant_violation_witness :
    (handleClusterEvent demoEnv stateWithDb1 ⟨Added, db1⟩).ignored = false ∧
    (handleClusterEvent demoEnv stateWithDb1 ⟨Added, db1⟩).err ≠ none ∧
    (handleClusterEvent demoEnv stateWithDb1 ⟨Added, db1⟩).state.clusters
      = stateWithDb1.clusters ∧
    (handleClusterEvent demoEnv stateWithDb1 ⟨Added, db1⟩).state.calls = stateWithDb1.calls :=
  C1_invariant_violation demoEnv stateWithDb1 ⟨Added, db1⟩ (by decide) (by decide) (by decide)
    (Or.inl ⟨rfl, by decide⟩)

theorem erase_of_not_mem {k : String} {r : Registry} (h : k ∉ r) : r.erase k = r :=
  AList.ext (List.kerase_of_not_mem_keys h)

theorem lookup_erase_eq (r : Registry) (key k : String) :
    (r.erase key).lookup k = if k = key then none else r.lookup k := by
  by_cases h : k = key
  · subst h; simp
  · simp [h, AList.lookup_erase_ne h]

theorem lookup_insert_eq (r : Registry) (key k : String) (v : ClusterPtr) :
    (r.insert key v).lookup k = if k = key then some v else r.lookup k := by
  by_cases h : k = key
  · subst h; simp
  · simp [h, AList.lookup_insert_ne h]

/-- C2: an Added event on a managed, non-Failed resource whose defaulted spec
validates, whose key is not in the registry and for which the constructor
returns the handle `nc`, returns `(false, nil)`; the new registry is the old
one with the single new entry `key ↦ nc` (the other keys map as before). -/
theorem C2_added_registers (env : Env) (st : State) (event : Event) (nc : ClusterPtr)
    (hm : env.managed event.Object = true)
    (hf : event.Object.Status.IsFailed = false)
    (hv : env.validate (env.setDefaults event.Object.Spec) = none)
    (ht : event.Typ = Added)
    (hk : getNamespacedName event.Object ∉ st.clusters)
    (hn : env.clusterNew st.calls (makeClusterConfig env) (event.Object.SetDefaults env)
            = some nc) :
    (handleClusterEvent env st event).ignored = false ∧
    (handleClusterEvent env st event).err = none ∧
    (handleClusterEvent env st event).state.clusters
      = st.clusters.insert (getNamespacedName event.Object) nc ∧
    (handleClusterEvent env st event).state.clusters.entries
      = ⟨getNamespacedName event.Object, nc⟩ :: st.clusters.entries ∧
    (∀ k, (handleClusterEvent env st event).state.clusters.lookup k
      = if k = getNamespacedName event.Object then some nc else st.clusters.lookup k) := by
  have hk2 := AList.lookup_eq_none.mpr hk
  have hout : (handleClusterEvent env st event).state.clusters
      = st.clusters.insert (getNamespacedName event.Object) nc := by
    simp [handleClusterEvent, hm, hf, hv, ht, hk2, hn, State.tell]
  refine ⟨?_, ?_, hout, ?_, ?_⟩
  · simp [handleClusterEvent, hm, hf, hv, ht, hk2, hn]
  · simp [handleClusterEvent, hm, hf, hv, ht, hk2, hn]
  · rw [hout, AList.insert_entries_of_neg hk]
  · intro k
    rw [hout, lookup_insert_eq]

/-- C2 at a concrete input: the first Added for `ns1/db1`. -/
theorem C2_added_registers_witness :
    (handleClusterEvent demoEnv New ⟨Added, db1⟩).ignored = false ∧
    (handleClusterEvent demoEnv New ⟨Added, db1⟩).err = none ∧
    (handleClusterEvent demoEnv New ⟨Added, db1⟩).state.clusters
      = New.clusters.insert (getNamespacedName db1) 0 ∧
    (handleClusterEvent demoEnv New ⟨Added, db1⟩).state.clusters.entries
      = ⟨getNamespacedName db1, 0⟩ :: New.clusters.entries ∧
    (∀ k, (handleClusterEvent demoEnv New ⟨Added, db1⟩).state.clusters.lookup k
      = if k = getNamespacedName db1 then some 0 else New.clusters.lookup k) :=
  C2_added_registers demoEnv New ⟨Added, db1⟩ 0 (by decide) (by decide) (by decide) rfl
    (by decide) (by decide)

/-- C3: a Deleted event on a managed, non-Failed resource whose defaulted spec
validates and whose key is registered with handle `inst` makes exactly one
collaborator call, `inst.Delete()`, removes exactly that key from the registry,
and returns `(false, nil)`. -/
theorem C3_deleted_unregisters (env : Env) (st : State) (event : Event) (inst : ClusterPtr)
    (hm : env.managed event.Object = true)
    (hf : event.Object.Status.IsFailed = false)
    (hv : env.validate (env.setDefaults event.Object.Spec) = none)
    (ht : event.Typ = Deleted)
    (hk : st.clusters.lookup (getNamespacedName event.Object) = some inst) :
    (handleClusterEvent env st event).state.calls = st.calls ++ [Call.clusterDelete inst] ∧
    (handleClusterEvent env st event).state.clusters
      = st.clusters.erase (getNamespacedName event.Object) ∧
    (∀ k, (handleClusterEvent env st event).state.clusters.lookup k
      = if k = getNamespacedName event.Object then none else st.clusters.lookup k) ∧
    (handleClusterEvent env st event).ignored = false ∧
    (handleClusterEvent env st event).err = none := by
  have hout : (handleClusterEvent env st event).state.clusters
      = st.clusters.erase (getNamespacedName event.Object) := by
    simp [handleClusterEvent, hm, hf, hv, ht, hk, State.tell, added_ne_deleted.symm,
      modified_ne_deleted.symm]
  refine ⟨?_, hout, ?_, ?_, ?_⟩
  · simp [handleClusterEvent, hm, hf, hv, ht, hk, State.tell, added_ne_deleted.symm,
      modified_ne_deleted.symm]
  · intro k
    rw [hout, lookup_erase_eq]
  · simp [handleClusterEvent, hm, hf, hv, ht, hk, added_ne_deleted.symm,
      modified_ne_deleted.symm]
  · simp [handleClusterEvent, hm, hf, hv, ht, hk, added_ne_deleted.symm,
      modified_ne_deleted.symm]

/-- C3 at a concrete input: Deleted for the registered `ns1/db1`. -/
theorem C3_deleted_unregisters_witness :
    (handleClusterEvent demoEnv stateWithDb1 ⟨Deleted, db1⟩).state.calls
      = stateWithDb1.calls ++ [Call.clusterDelete 7] ∧
    (handleClusterEvent demoEnv stateWithDb1 ⟨Deleted, db1⟩).state.clusters
      = stateWithDb1.clusters.erase (getNamespacedName db1) ∧
    (∀ k, (handleClusterEvent demoEnv stateWithDb1 ⟨Deleted, db1⟩).state.clusters.lookup k
      = if k = getNamespacedName db1 then none else stateWithDb1.clusters.lookup k) ∧
    (handleClusterEvent demoEnv stateWithDb1 ⟨Deleted, db1⟩).ignored = false ∧
    (handleClusterEvent demoEnv stateWithDb1 ⟨Deleted, db1⟩).err = none :=
  C3_deleted_unregisters demoEnv stateWithDb1 ⟨Deleted, db1⟩ 7 (by decide) (by decide)
    (by decide) rfl (by decide)

/-- C4: on a managed, non-Failed resource whose spec, after defaulting, is
rejected by validation with message `m`, an event of any type returns
`(false, err)` where `err` carries `m`, whatever the registry holds; the
registry and the trace of collaborator calls are as before. -/
theorem C4_validation_gate (env : Env) (st : State) (event : Event) (m : String)
    (hm : env.managed event.Object = true)
    (hf : event.Object.Status.IsFailed = false)
    (hv : env.validate (env.setDefaults event.Object.Spec) = some m) :
    (handleClusterEvent env st event).ignored = false ∧
    (handleClusterEvent env st event).err
      = some ("invalid cluster spec. please fix the following problem with the cluster spec: "
          ++ m) ∧
    (handleClusterEvent env st event).state.clusters = st.clusters ∧
    (handleClusterEvent env st event).state.calls = st.calls := by
  simp [handleClusterEvent, hm, hf, hv]

/-- C4 at a concrete input: an Added event with a negative size. -/
theorem C4_validation_gate_witness :
    (handleClusterEvent demoEnv New ⟨Added, db1Invalid⟩).ignored = false ∧
    (handleClusterEvent demoEnv New ⟨Added, db1Invalid⟩).err
      = some ("invalid cluster spec. please fix the following problem with the cluster spec: "
          ++ "spec.size is negative") ∧
    (handleClusterEvent demoEnv New ⟨Added, db1Invalid⟩).state.clusters = New.clusters ∧
    (handleClusterEvent demoEnv New ⟨Added, db1Invalid⟩).state.calls = New.calls :=
  C4_validation_gate demoEnv New ⟨Added, db1Invalid⟩ "spec.size is negative" (by decide)
    (by decide) (by decide)

theorem cleanup_calls (env : Env) (st : State) (clus : EtcdCluster) :
    (cleanupClusterResources env st clus).1.calls = st.calls ++ cleanupCalls env clus := by
  unfold cleanupClusterResources
  simp only [State.api]
  split <;> simp [cleanupCalls]

theorem cleanup_clusters (env : Env) (st : State) (clus : EtcdCluster) :
    (cleanupClusterResources env st clus).1.clusters = st.clusters := by
  unfold cleanupClusterResources
  simp only [State.api]
  split <;> rfl

theorem cleanup_metrics (env : Env) (st : State) (clus : EtcdCluster) :
    (cleanupClusterResources env st clus).1.metrics = st.metrics := by
  unfold cleanupClusterResources
  simp only [State.api]
  split <;> rfl

/-- The state in which the Recreate path leaves the controller before the
status persist: after `inst.Delete()`, the registry removal and the cleanup. -/
theorem recreate_shape (env : Env) (st : State) (event : Event)
    (hm : env.managed event.Object = true)
    (hf : event.Object.Status.IsFailed = true)
    (hp : event.Object.Spec.FailurePolicy = FailurePolicyRecreate) :
    (handleClusterEvent env st event).state.calls
      = st.calls ++ recreateDeleteCalls st event.Object ++ cleanupCalls env event.Object
        ++ [Call.updateEtcdCluster event.Object.Namespace
              { event.Object with Status := ClusterStatus.empty }] ∧
    (handleClusterEvent env st event).state.clusters
      = st.clusters.erase (getNamespacedName event.Object) ∧
    (handleClusterEvent env st event).object
      = { event.Object with Status := ClusterStatus.empty } ∧
    (handleClusterEvent env st event).ignored = false ∧
    (handleClusterEvent env st event).err
      = env.apiError
          (st.calls ++ recreateDeleteCalls st event.Object ++ cleanupCalls env event.Object)
          (Call.updateEtcdCluster event.Object.Namespace
              { event.Object with Status := ClusterStatus.empty }) := by
  unfold handleClusterEvent
  simp only [hm, hf, hp, Bool.not_true, Bool.false_eq_true, if_false, if_true]
  cases hl : st.clusters.lookup (getNamespacedName event.Object) with
  | none =>
    simp only [State.log, hl, recreateDeleteCalls, State.api]
    split <;> split <;>
      simp_all [cleanup_calls, cleanup_clusters, State.log]
  | some inst =>
    simp only [State.log, hl, recreateDeleteCalls, State.api, State.tell]
    split <;> split <;>
      simp_all [cleanup_calls, cleanup_clusters, State.log]

/-- C5: on a managed resource with status Failed and failure policy Recreate,
for an event of any type, when the store update succeeds: the four auxiliary
deletions are issued, the store update receives the resource with the empty
status, the key is no longer in the registry while every other key maps as
before, and the result is `(false, nil)`. -/
theorem C5_recreate_cycle (env : Env) (st : State) (event : Event)
    (hm : env.managed event.Object = true)
    (hf : event.Object.Status.IsFailed = true)
    (hp : event.Object.Spec.FailurePolicy = FailurePolicyRecreate)
    (hu : env.apiError
        (st.calls ++ recreateDeleteCalls st event.Object ++ cleanupCalls env event.Object)
        (Call.updateEtcdCluster event.Object.Namespace
          { event.Object with Status := ClusterStatus.empty }) = none) :
    (handleClusterEvent env st event).state.calls
      = st.calls ++ recreateDeleteCalls st event.Object ++ cleanupCalls env event.Object
        ++ [Call.updateEtcdCluster event.Object.Namespace
              { event.Object with Status := ClusterStatus.empty }] ∧
    (handleClusterEvent env st event).object.Status = ClusterStatus.empty ∧
    getNamespacedName event.Object ∉ (handleClusterEvent env st event).state.clusters ∧
    (∀ k, k ≠ getNamespacedName event.Object →
      (handleClusterEvent env st event).state.clusters.lookup k = st.clusters.lookup k) ∧
    (handleClusterEvent env st event).ignored = false ∧
    (handleClusterEvent env st event).err = none := by
  obtain ⟨h1, h2, h3, h4, h5⟩ := recreate_shape env st event hm hf hp
  refine ⟨h1, ?_, ?_, ?_, h4, ?_⟩
  · rw [h3]
  · rw [h2]
    simp [AList.mem_erase]
  · intro k hk
    rw [h2, AList.lookup_erase_ne hk]
  · rw [h5, hu]

/-- C5 at a concrete input: a Modified event for the registered `ns1/db1`,
failed with policy Recreate. -/
theorem C5_recreate_cycle_witness :
    (handleClusterEvent demoEnv stateWithDb1 ⟨Modified, db1Failed "Recreate"⟩).state.calls
      = [Call.clusterDelete 7,
         Call.deletePodDisruptionBudget "ns1" "db1" 5,
         Call.deletePodCollection "ns1" 5 "etcd_cluster=db1",
         Call.deleteService "ns1" "db1" 5,
         Call.deleteService "ns1" "db1-client" 5,
         Call.updateEtcdCluster "ns1"
           { db1Failed "Recreate" with Status := ClusterStatus.empty }] ∧
    (handleClusterEvent demoEnv stateWithDb1 ⟨Modified, db1Failed "Recreate"⟩).err = none :=
  have h := C5_recreate_cycle demoEnv stateWithDb1 ⟨Modified, db1Failed "Recreate"⟩
    (by decide) (by decide) (by decide) rfl
  ⟨h.1.trans (by decide), h.2.2.2.2.2⟩

/-- C6: on a managed resource with status Failed and a failure policy other
than Recreate, an Added or Modified event returns `(false, err)` where the
text of `err` contains the resource name, and leaves the registry and the
event object as they were; handling the same event again on the resulting
state returns the same error and again leaves the registry as it was. -/
theorem C6_manual_policy_error (env : Env) (st : State) (event : Event)
    (hm : env.managed event.Object = true)
    (hf : event.Object.Status.IsFailed = true)
    (hp : event.Object.Spec.FailurePolicy ≠ FailurePolicyRecreate)
    (ht : event.Typ = Added ∨ event.Typ = Modified) :
    (handleClusterEvent env st event).ignored = false ∧
    (∃ msg, (handleClusterEvent env st event).err = some msg ∧
      Contains msg event.Object.Name) ∧
    (handleClusterEvent env st event).state.clusters = st.clusters ∧
    (handleClusterEvent env st event).object = event.Object ∧
    (handleClusterEvent env (handleClusterEvent env st event).state event).ignored = false ∧
    (handleClusterEvent env (handleClusterEvent env st event).state event).err
      = (handleClusterEvent env st event).err ∧
    (handleClusterEvent env (handleClusterEvent env st event).state event).state.clusters
      = (handleClusterEvent env st event).state.clusters := by
  have hd : event.Typ ≠ Deleted := by
    rcases ht with ht | ht <;> rw [ht]
    · exact added_ne_deleted
    · exact modified_ne_deleted
  have key : ∀ s : State,
      (handleClusterEvent env s event).ignored = false ∧
      (handleClusterEvent env s event).err
        = some ("ignore failed cluster (" ++ event.Object.Name ++ "). Please delete its CR") ∧
      (handleClusterEvent env s event).state.clusters = s.clusters ∧
      (handleClusterEvent env s event).object = event.Object := by
    intro s
    simp [handleClusterEvent, hm, hf, hp, hd]
  obtain ⟨a1, a2, a3, a4⟩ := key st
  obtain ⟨b1, b2, b3, _⟩ := key (handleClusterEvent env st event).state
  exact ⟨a1, ⟨_, a2, "ignore failed cluster (", "). Please delete its CR", rfl⟩, a3, a4,
    b1, b2.trans a2.symm, b3⟩

/-- C6 at a concrete input: a Modified event for the registered `ns1/db1`,
failed with policy Manual. -/
theorem C6_manual_policy_error_witness :
    (handleClusterEvent demoEnv stateWithDb1 ⟨Modified, db1Failed "Manual"⟩).err
      = some "ignore failed cluster (db1). Please delete its CR" ∧
    (handleClusterEvent demoEnv
        (handleClusterEvent demoEnv stateWithDb1 ⟨Modified, db1Failed "Manual"⟩).state
        ⟨Modified, db1Failed "Manual"⟩).err
      = some "ignore failed cluster (db1). Please delete its CR" ∧
    (handleClusterEvent demoEnv stateWithDb1 ⟨Modified, db1Failed "Manual"⟩).state.clusters
      = stateWithDb1.clusters :=
  have h := C6_manual_policy_error demoEnv stateWithDb1 ⟨Modified, db1Failed "Manual"⟩
    (by decide) (by decide) (by decide) (Or.inr rfl)
  have e : (handleClusterEvent demoEnv stateWithDb1 ⟨Modified, db1Failed "Manual"⟩).err
      = some "ignore failed cluster (db1). Please delete its CR" := by decide
  ⟨e, h.2.2.2.2.2.1.trans e, h.2.2.1⟩

/-- C7: on a managed resource with status Failed and a failure policy other
than Recreate, a Deleted event returns `(false, nil)` and the registry is the
old one without the key of the resource (the old one itself when the key was
absent); nothing is assumed about validation of the spec. -/
theorem C7_manual_policy_deleted (env : Env) (st : State) (event : Event)
    (hm : env.managed event.Object = true)
    (hf : event.Object.Status.IsFailed = true)
    (hp : event.Object.Spec.FailurePolicy ≠ FailurePolicyRecreate)
    (ht : event.Typ = Deleted) :
    (handleClusterEvent env st event).ignored = false ∧
    (handleClusterEvent env st event).err = none ∧
    (handleClusterEvent env st event).state.clusters
      = st.clusters.erase (getNamespacedName event.Object) ∧
    (∀ k, (handleClusterEvent env st event).state.clusters.lookup k
      = if k = getNamespacedName event.Object then none else st.clusters.lookup k) ∧
    (getNamespacedName event.Object ∉ st.clusters →
      (handleClusterEvent env st event).state.clusters = st.clusters) := by
  have hout : (handleClusterEvent env st event).state.clusters
      = st.clusters.erase (getNamespacedName event.Object) := by
    simp [handleClusterEvent, hm, hf, hp, ht]
  refine ⟨?_, ?_, hout, ?_, ?_⟩
  · simp [handleClusterEvent, hm, hf, hp, ht]
  · simp [handleClusterEvent, hm, hf, hp, ht]
  · intro k
    rw [hout, lookup_erase_eq]
  · intro hk
    rw [hout, erase_of_not_mem hk]

/-- C7 at a concrete input: a Deleted event for the registered `ns1/db1`,
failed with policy Manual and carrying a spec that would not validate. -/
theorem C7_manual_policy_deleted_witness :
    demoEnv.validate (demoEnv.setDefaults
      { (db1Failed "Manual").Spec with Size := -1 }) ≠ none ∧
    (handleClusterEvent demoEnv stateWithDb1
      ⟨Deleted, { db1Failed "Manual" with
        Spec := { (db1Failed "Manual").Spec with Size := -1 } }⟩).err = none ∧
    (handleClusterEvent demoEnv stateWithDb1
      ⟨Deleted, { db1Failed "Manual" with
        Spec := { (db1Failed "Manual").Spec with Size := -1 } }⟩).state.clusters.lookup
        "ns1/db1" = none :=
  have h := C7_manual_policy_deleted demoEnv stateWithDb1
    ⟨Deleted, { db1Failed "Manual" with
        Spec := { (db1Failed "Manual").Spec with Size := -1 } }⟩
    (by decide) (by decide) (by decide) rfl
  ⟨by decide, h.2.1, (h.2.2.2.1 "ns1/db1").trans (by decide)⟩

/-- C8: `handleClusterEvent` returns `ignored = true` exactly when the resource
is not managed; in that case the error is nil, the whole state (registry,
counters, trace of collaborator calls, log) is as before and the event object
is as before. -/
theorem C8_ownership_filter (env : Env) (st : State) (event : Event) :
    ((handleClusterEvent env st event).ignored = true ↔ env.managed event.Object = false) ∧
    (env.managed event.Object = false →
      (handleClusterEvent env st event).err = none ∧
      (handleClusterEvent env st event).state = st ∧
      (handleClusterEvent env st event).object = event.Object) := by
  constructor
  · cases hm : env.managed event.Object
    · simp [handleClusterEvent, hm]
    · unfold handleClusterEvent
      simp only [hm, Bool.not_true, Bool.false_eq_true, if_false]
      repeat' split
      all_goals simp
  · intro hm
    simp [handleClusterEvent, hm]

/-- C8 at a concrete input: an Added event for a resource of another namespace. -/
theorem C8_ownership_filter_witness :
    (handleClusterEvent demoEnv stateWithDb1 ⟨Added, foreignDb⟩).ignored = true ∧
    (handleClusterEvent demoEnv stateWithDb1 ⟨Added, foreignDb⟩).err = none ∧
    (handleClusterEvent demoEnv stateWithDb1 ⟨Added, foreignDb⟩).state = stateWithDb1 ∧
    (handleClusterEvent demoEnv stateWithDb1 ⟨Added, foreignDb⟩).object = foreignDb :=
  ⟨(C8_ownership_filter demoEnv stateWithDb1 ⟨Added, foreignDb⟩).1.mpr (by decide),
   (C8_ownership_filter demoEnv stateWithDb1 ⟨Added, foreignDb⟩).2 (by decide)⟩

/-- C9: an Added event on a managed, non-Failed resource whose defaulted spec
validates and whose key is not in the registry, when the constructor returns
nil: the result is `(false, err)` with a non-nil error, the registry is as
before and the key is still absent. -/
theorem C9_construction_error (env : Env) (st : State) (event : Event)
    (hm : env.managed event.Object = true)
    (hf : event.Object.Status.IsFailed = false)
    (hv : env.validate (env.setDefaults event.Object.Spec) = none)
    (ht : event.Typ = Added)
    (hk : getNamespacedName event.Object ∉ st.clusters)
    (hn : env.clusterNew st.calls (makeClusterConfig env) (event.Object.SetDefaults env)
            = none) :
    (handleClusterEvent env st event).ignored = false ∧
    (handleClusterEvent env st event).err ≠ none ∧
    (handleClusterEvent env st event).state.clusters = st.clusters ∧
    getNamespacedName event.Object ∉ (handleClusterEvent env st event).state.clusters := by
  have hk2 := AList.lookup_eq_none.mpr hk
  have hout : (handleClusterEvent env st event).state.clusters = st.clusters := by
    simp [handleClusterEvent, hm, hf, hv, ht, hk2, hn, State.tell]
  refine ⟨?_, ?_, hout, ?_⟩
  · simp [handleClusterEvent, hm, hf, hv, ht, hk2, hn]
  · simp [handleClusterEvent, hm, hf, hv, ht, hk2, hn]
  · rw [hout]; exact hk

/-- C9 at a concrete input: an Added event for a resource whose name the
constructor refuses. -/
theorem C9_construction_error_witness :
    (handleClusterEvent demoEnv New ⟨Added, longNameDb⟩).ignored = false ∧
    (handleClusterEvent demoEnv New ⟨Added, longNameDb⟩).err ≠ none ∧
    (handleClusterEvent demoEnv New ⟨Added, longNameDb⟩).state.clusters = New.clusters ∧
    getNamespacedName longNameDb ∉ (handleClusterEvent demoEnv New ⟨Added, longNameDb⟩).state.clusters :=
  C9_construction_error demoEnv New ⟨Added, longNameDb⟩ (by decide) (by decide) (by decide)
    rfl (by decide) (by decide)

theorem ne_and_mem_iff (r : Registry) (k key : String) :
    (¬ k = key ∧ k ∈ r) ↔ (k ∈ r ∧ ¬ key = k) :=
  ⟨fun h => ⟨h.2, fun e => h.1 e.symm⟩, fun h => ⟨fun e => h.2 e.symm, h.1⟩⟩

/-- One step of the registry: a key is registered after an event exactly when
it was registered before and the event is not a removal event for it, or the
event is an accepted Added for it. -/
theorem step_mem_iff (env : Env) (st : State) (e : Event) (k : String) :
    k ∈ (handleClusterEvent env st e).state.clusters ↔
      (k ∈ st.clusters ∧ ¬ (getNamespacedName e.Object = k ∧ RemovalEvent env e)) ∨
      (getNamespacedName e.Object = k ∧ AcceptedAdded env st e) := by
  cases hm : env.managed e.Object
  · simp [handleClusterEvent, hm, RemovalEvent, AcceptedAdded]
  cases hf : e.Object.Status.IsFailed
  · cases hv : env.validate (env.setDefaults e.Object.Spec) with
    | some m => simp [handleClusterEvent, hm, hf, hv, RemovalEvent, AcceptedAdded]
    | none =>
      by_cases ha : e.Typ = Added
      · cases hl : st.clusters.lookup (getNamespacedName e.Object) with
        | some inst =>
          have hin : getNamespacedName e.Object ∈ st.clusters :=
            AList.lookup_isSome.mp (by simp [hl])
          simp [handleClusterEvent, hm, hf, hv, ha, hl, RemovalEvent, AcceptedAdded,
            added_ne_deleted]
        | none =>
          have hin : getNamespacedName e.Object ∉ st.clusters := AList.lookup_eq_none.mp hl
          cases hn : env.clusterNew st.calls (makeClusterConfig env) (e.Object.SetDefaults env) with
          | none =>
            simp [handleClusterEvent, hm, hf, hv, ha, hl, hn, RemovalEvent, AcceptedAdded,
              added_ne_deleted, State.tell]
          | some nc =>
            simp [handleClusterEvent, hm, hf, hv, ha, hl, hn, RemovalEvent, AcceptedAdded,
              added_ne_deleted, State.tell, AList.mem_insert]
            by_cases hk : getNamespacedName e.Object = k
            · simp [hk]
            · have hk2 : ¬ k = getNamespacedName e.Object := fun h => hk h.symm
              simp [hk, hk2]
      · by_cases hmod : e.Typ = Modified
        · cases hl : st.clusters.lookup (getNamespacedName e.Object) <;>
            simp [handleClusterEvent, hm, hf, hv, ha, hmod, hl, RemovalEvent, AcceptedAdded,
              modified_ne_deleted, added_ne_modified.symm, State.tell]
        · by_cases hd : e.Typ = Deleted
          · cases hl : st.clusters.lookup (getNamespacedName e.Object) with
            | none =>
              have hin : getNamespacedName e.Object ∉ st.clusters := AList.lookup_eq_none.mp hl
              simp [handleClusterEvent, hm, hf, hv, hd, hl, RemovalEvent, AcceptedAdded,
                modified_ne_deleted.symm, added_ne_deleted.symm]
              intro hk hk2
              exact hin (hk2 ▸ hk)
            | some inst =>
              simp [handleClusterEvent, hm, hf, hv, hd, hl, RemovalEvent, AcceptedAdded,
                modified_ne_deleted.symm, added_ne_deleted.symm, State.tell, AList.mem_erase]
              exact ne_and_mem_iff _ _ _
          · simp [handleClusterEvent, hm, hf, hv, ha, hmod, hd, RemovalEvent, AcceptedAdded]
  · by_cases hp : e.Object.Spec.FailurePolicy = FailurePolicyRecreate
    · obtain ⟨-, h2, -, -, -⟩ := recreate_shape env st e hm hf hp
      rw [h2]
      simp [RemovalEvent, AcceptedAdded, hm, hf, hp, AList.mem_erase]
      exact ne_and_mem_iff _ _ _
    · by_cases hd : e.Typ = Deleted
      · simp [handleClusterEvent, hm, hf, hp, hd, RemovalEvent, AcceptedAdded, AList.mem_erase]
        exact ne_and_mem_iff _ _ _
      · simp [handleClusterEvent, hm, hf, hp, hd, RemovalEvent, AcceptedAdded]

/-- The registry after a sequence of events handled from state `st`: a key is
registered exactly when it was registered in `st` and no event of the sequence
is a removal event for it, or some Added event for it was accepted and no
later event of the sequence is a removal event for it. -/
theorem handleEvents_mem_iff (env : Env) (k : String) (evs : List Event) :
    ∀ st : State, k ∈ (handleEvents env st evs).clusters ↔
      (k ∈ st.clusters ∧ ∀ x ∈ evs, getNamespacedName x.Object = k → ¬ RemovalEvent env x) ∨
      AddedAndKept env st (RemovalEvent env) k evs := by
  induction evs with
  | nil =>
    intro st
    simp [handleEvents, AddedAndKept]
  | cons e es ih =>
    intro st
    rw [handleEvents, ih, step_mem_iff]
    constructor
    · rintro (⟨(⟨hk, hne⟩ | ⟨hkey, hacc⟩), hes⟩ | ⟨pre, a, post, heq, hkey, hacc, hpost⟩)
      · left
        refine ⟨hk, ?_⟩
        intro x hx hxk
        rcases List.mem_cons.mp hx with rfl | hx
        · exact fun hr => hne ⟨hxk, hr⟩
        · exact hes x hx hxk
      · right
        exact ⟨[], e, es, rfl, hkey, hacc, hes⟩
      · right
        exact ⟨e :: pre, a, post, by rw [heq]; rfl, hkey, hacc, hpost⟩
    · rintro (⟨hk, hall⟩ | ⟨pre, a, post, heq, hkey, hacc, hpost⟩)
      · left
        refine ⟨Or.inl ⟨hk, fun h => hall e (List.mem_cons_self _ _) h.1 h.2⟩, ?_⟩
        intro x hx
        exact hall x (List.mem_cons_of_mem _ hx)
      · cases pre with
        | nil =>
          simp only [List.nil_append, List.cons.injEq] at heq
          obtain ⟨rfl, rfl⟩ := heq
          left
          exact ⟨Or.inr ⟨hkey, hacc⟩, hpost⟩
        | cons p pre =>
          simp only [List.cons_append, List.cons.injEq] at heq
          obtain ⟨rfl, rfl⟩ := heq
          right
          exact ⟨pre, a, post, rfl, hkey, hacc, hpost⟩

theorem addedThenInvalidDeleted_ordered : PerKeyOrdered addedThenInvalidDeleted := by
  intro pre e post heq ht
  match pre, heq with
  | [], heq =>
    simp only [addedThenInvalidDeleted, List.nil_append, List.cons.injEq] at heq
    obtain ⟨rfl, -⟩ := heq
    rcases ht with ht | ht
    · exact absurd ht added_ne_modified
    · exact absurd ht added_ne_deleted
  | [p], heq =>
    simp only [addedThenInvalidDeleted, List.cons_append, List.nil_append,
      List.cons.injEq] at heq
    obtain ⟨rfl, rfl, -⟩ := heq
    exact ⟨_, List.mem_singleton.mpr rfl, rfl, rfl⟩
  | p :: q :: r, heq =>
    simp [addedThenInvalidDeleted] at heq

/-- C10 as stated fails: after an Added event for `ns1/db1` and a Deleted event
for the same key that is stopped by validation, the key is in the registry
although a Deleted event follows the accepted Added. -/
theorem C10_counterexample :
    PerKeyOrdered addedThenInvalidDeleted ∧
    ¬ ("ns1/db1" ∈ (handleEvents demoEnv New addedThenInvalidDeleted).clusters ↔
        AddedAndKept demoEnv New DeletedOrRecreate "ns1/db1" addedThenInvalidDeleted) := by
  refine ⟨addedThenInvalidDeleted_ordered, ?_⟩
  intro hiff
  obtain ⟨pre, e, post, heq, -, hacc, hpost⟩ := hiff.mp (by decide)
  match pre, heq with
  | [], heq =>
    simp only [addedThenInvalidDeleted, List.nil_append, List.cons.injEq] at heq
    obtain ⟨-, rfl⟩ := heq
    exact hpost ⟨Deleted, db1Invalid⟩ (List.mem_singleton.mpr rfl) rfl (Or.inl rfl)
  | [p], heq =>
    simp only [addedThenInvalidDeleted, List.cons_append, List.nil_append,
      List.cons.injEq] at heq
    obtain ⟨-, rfl, -⟩ := heq
    exact absurd hacc.1.symm added_ne_deleted
  | p :: q :: r, heq =>
    simp [addedThenInvalidDeleted] at heq

/-- C10 (amended): for a sequence of events handled one after another from the
empty registry, in which for each key an Added precedes any Modified or
Deleted, a key is in the final registry exactly when some Added event for it
was accepted (handled on a non-Failed resource with result `(false, nil)`) and
no later event of the sequence for that key is an event on a managed resource
that is either a Failed-status event with policy Recreate or a Deleted event on
a resource that is Failed or whose defaulted spec validates. -/
theorem C10_registry_keys (env : Env) (evs : List Event) (k : String)
    (_hord : PerKeyOrdered evs) :
    k ∈ (handleEvents env New evs).clusters ↔
      AddedAndKept env New (RemovalEvent env) k evs := by
  rw [handleEvents_mem_iff]
  constructor
  · rintro (⟨hk, -⟩ | h)
    · exact absurd hk (AList.not_mem_empty k)
    · exact h
  · exact Or.inr

/-- C10 (amended) at a concrete input: the Deleted event stopped by validation
is not a removal, so the accepted Added for `ns1/db1` is kept. -/
theorem C10_registry_keys_witness :
    PerKeyOrdered addedThenInvalidDeleted ∧
    "ns1/db1" ∈ (handleEvents demoEnv New addedThenInvalidDeleted).clusters ∧
    AddedAndKept demoEnv New (RemovalEvent demoEnv) "ns1/db1" addedThenInvalidDeleted :=
  ⟨addedThenInvalidDeleted_ordered, by decide,
   (C10_registry_keys demoEnv addedThenInvalidDeleted "ns1/db1"
      addedThenInvalidDeleted_ordered).mp (by decide)⟩

/-- C11: from a registry that does not hold `ns1/db1`, with a managed,
non-Failed resource `ns1/db1` whose defaulted spec validates and for which the
constructor returns a handle: Added returns `(false, nil)` and registers the
key; Deleted next returns `(false, nil)` and removes the key; the same Deleted
once more returns `(false, err)` with a non-nil error and leaves the registry
as it was. -/
theorem C11_end_to_end (env : Env) (st : State) (clus : EtcdCluster) (nc : ClusterPtr)
    (hns : clus.Namespace = "ns1") (hname : clus.Name = "db1")
    (hm : env.managed clus = true)
    (hf : clus.Status.IsFailed = false)
    (hv : env.validate (env.setDefaults clus.Spec) = none)
    (hk : "ns1/db1" ∉ st.clusters)
    (hn : env.clusterNew st.calls (makeClusterConfig env) (clus.SetDefaults env) = some nc) :
    (handleClusterEvent env st ⟨Added, clus⟩).ignored = false ∧
    (handleClusterEvent env st ⟨Added, clus⟩).err = none ∧
    "ns1/db1" ∈ (handleClusterEvent env st ⟨Added, clus⟩).state.clusters ∧
    (handleClusterEvent env (handleClusterEvent env st ⟨Added, clus⟩).state
      ⟨Deleted, clus⟩).ignored = false ∧
    (handleClusterEvent env (handleClusterEvent env st ⟨Added, clus⟩).state
      ⟨Deleted, clus⟩).err = none ∧
    "ns1/db1" ∉ (handleClusterEvent env (handleClusterEvent env st ⟨Added, clus⟩).state
      ⟨Deleted, clus⟩).state.clusters ∧
    (handleClusterEvent env
      (handleClusterEvent env (handleClusterEvent env st ⟨Added, clus⟩).state
        ⟨Deleted, clus⟩).state ⟨Deleted, clus⟩).ignored = false ∧
    (handleClusterEvent env
      (handleClusterEvent env (handleClusterEvent env st ⟨Added, clus⟩).state
        ⟨Deleted, clus⟩).state ⟨Deleted, clus⟩).err ≠ none ∧
    (handleClusterEvent env
      (handleClusterEvent env (handleClusterEvent env st ⟨Added, clus⟩).state
        ⟨Deleted, clus⟩).state ⟨Deleted, clus⟩).state.clusters
      = (handleClusterEvent env (handleClusterEvent env st ⟨Added, clus⟩).state
          ⟨Deleted, clus⟩).state.clusters := by
  have hkey : getNamespacedName clus = "ns1/db1" := by
    simp only [getNamespacedName, hns, hname]
    decide
  rw [← hkey] at hk ⊢
  have hl : st.clusters.lookup (getNamespacedName clus) = none := AList.lookup_eq_none.mpr hk
  -- the Added event
  have a1 : (handleClusterEvent env st ⟨Added, clus⟩).ignored = false := by
    simp [handleClusterEvent, hm, hf, hv, hl, hn]
  have a2 : (handleClusterEvent env st ⟨Added, clus⟩).err = none := by
    simp [handleClusterEvent, hm, hf, hv, hl, hn]
  have a3 : (handleClusterEvent env st ⟨Added, clus⟩).state.clusters
      = st.clusters.insert (getNamespacedName clus) nc := by
    simp [handleClusterEvent, hm, hf, hv, hl, hn, State.tell]
  have hl1 : (handleClusterEvent env st ⟨Added, clus⟩).state.clusters.lookup
      (getNamespacedName clus)
      = some nc := by
    rw [a3, AList.lookup_insert]
  -- the first Deleted event
  generalize (handleClusterEvent env st ⟨Added, clus⟩).state = st1 at a3 hl1 ⊢
  have b1 : (handleClusterEvent env st1 ⟨Deleted, clus⟩).ignored = false := by
    simp [handleClusterEvent, hm, hf, hv, hl1, added_ne_deleted.symm,
      modified_ne_deleted.symm]
  have b2 : (handleClusterEvent env st1 ⟨Deleted, clus⟩).err = none := by
    simp [handleClusterEvent, hm, hf, hv, hl1, added_ne_deleted.symm,
      modified_ne_deleted.symm]
  have b3 : (handleClusterEvent env st1 ⟨Deleted, clus⟩).state.clusters
      = st1.clusters.erase (getNamespacedName clus) := by
    simp [handleClusterEvent, hm, hf, hv, hl1, added_ne_deleted.symm,
      modified_ne_deleted.symm, State.tell]
  have hl2 : (handleClusterEvent env st1 ⟨Deleted, clus⟩).state.clusters.lookup
      (getNamespacedName clus)
      = none := by
    rw [b3, AList.lookup_erase]
  -- the replayed Deleted event
  generalize (handleClusterEvent env st1 ⟨Deleted, clus⟩).state = st2 at b3 hl2 ⊢
  refine ⟨a1, a2, ?_, b1, b2, AList.lookup_eq_none.mp hl2, ?_, ?_, ?_⟩
  · rw [a3]; simp [AList.mem_insert]
  · simp [handleClusterEvent, hm, hf, hv, hl2, added_ne_deleted.symm,
      modified_ne_deleted.symm]
  · simp [handleClusterEvent, hm, hf, hv, hl2, added_ne_deleted.symm,
      modified_ne_deleted.symm]
  · simp [handleClusterEvent, hm, hf, hv, hl2, added_ne_deleted.symm,
      modified_ne_deleted.symm]

/-- C11 at a concrete input: the resource `db1` from the empty registry. -/
theorem C11_end_to_end_witness :
    (handleClusterEvent demoEnv New ⟨Added, db1⟩).err = none ∧
    "ns1/db1" ∈ (handleClusterEvent demoEnv New ⟨Added, db1⟩).state.clusters ∧
    "ns1/db1" ∉ (handleClusterEvent demoEnv (handleClusterEvent demoEnv New ⟨Added, db1⟩).state
      ⟨Deleted, db1⟩).state.clusters ∧
    (handleClusterEvent demoEnv
      (handleClusterEvent demoEnv (handleClusterEvent demoEnv New ⟨Added, db1⟩).state
        ⟨Deleted, db1⟩).state ⟨Deleted, db1⟩).err ≠ none :=
  have h := C11_end_to_end demoEnv New db1 0 rfl rfl (by decide) (by decide) (by decide)
    (by decide) (by decide)
  ⟨h.2.1, h.2.2.1, h.2.2.2.2.2.1, h.2.2.2.2.2.2.2.1⟩

theorem causeLoop_eq_rootCause_of_not_nilCause (e : GoError) :
    causeLoop e = some (rootCause e) ∨ (causeLoop e = none ∧ ∃ m, rootCause e = .nilCause m) := by
  induction e with
  | fatal fe => exact Or.inl rfl
  | plain m => exact Or.inl rfl
  | withCause m c ih => simpa [causeLoop, rootCause] using ih
  | nilCause m => exact Or.inr ⟨rfl, m, rfl⟩

theorem isFatalError_some_iff (e : GoError) :
    isFatalError (some e) = true ↔ ∃ fe, rootCause e = .fatal fe := by
  rcases causeLoop_eq_rootCause_of_not_nilCause e with h | ⟨h, m, hm⟩
  · simp only [isFatalError, Cause, h]
    cases hr : rootCause e <;> simp
  · simp [isFatalError, Cause, h, hm]

theorem isFatalError_wrapAll (ms : List String) (e : GoError) :
    isFatalError (some (wrapAll ms e)) = isFatalError (some e) := by
  induction ms with
  | nil => rfl
  | cons m ms ih =>
    rw [← ih]
    simp [isFatalError, Cause, wrapAll, causeLoop]

/-- C12: for every error value, nil included, `isFatalError` is true exactly
when the error is non-nil and its root cause, reached by following the cause
chain until an error that carries no cause, is a `fatalError`; it is false for
nil and for every other root cause. -/
theorem C12_isFatalError_root_cause (err : Option GoError) :
    (isFatalError err = true ↔ ∃ e fe, err = some e ∧ rootCause e = .fatal fe) ∧
    isFatalError none = false := by
  refine ⟨?_, rfl⟩
  cases err with
  | none => simp [isFatalError, Cause]
  | some e => simp [isFatalError_some_iff]

/-- C13 as stated fails: a `fatalError` made by `newFatalError` with another
reason is classified fatal, and its root cause does not carry the reason
"quorum was lost". -/
theorem C13_counterexample :
    isFatalError (some (.fatal (newFatalError "disk is full"))) = true ∧
    ¬ ∃ fe, rootCause (.fatal (newFatalError "disk is full")) = .fatal fe ∧
        fe.reason = "quorum was lost" := by
  refine ⟨rfl, ?_⟩
  rintro ⟨fe, h, hr⟩
  simp only [rootCause, GoError.fatal.injEq] at h
  subst h
  exact absurd hr (by decide)

/-- C13 (amended): if `isFatalError` returns true then the error is non-nil and
its root cause is a `fatalError`; `errQuorumLost`, whose reason is "quorum was
lost", is classified fatal; `isFatalError` returns false for
`errCreatingCluster`, for every plain error, and for every error whose root
cause is not a `fatalError`. -/
theorem C13_isFatalError_values :
    (∀ err, isFatalError err = true → ∃ e fe, err = some e ∧ rootCause e = .fatal fe) ∧
    isFatalError (some (.fatal errQuorumLost)) = true ∧
    errQuorumLost.Error = "quorum was lost" ∧
    isFatalError (some errCreatingCluster) = false ∧
    (∀ m, isFatalError (some (.plain m)) = false) ∧
    (∀ e, (∀ fe, rootCause e ≠ .fatal fe) → isFatalError (some e) = false) := by
  refine ⟨?_, rfl, rfl, rfl, fun _ => rfl, ?_⟩
  · intro err h
    cases err with
    | none => exact absurd h (by decide)
    | some e =>
      obtain ⟨fe, hfe⟩ := (isFatalError_some_iff e).mp h
      exact ⟨e, fe, rfl, hfe⟩
  · intro e h
    cases hb : isFatalError (some e) with
    | false => rfl
    | true =>
      obtain ⟨fe, hfe⟩ := (isFatalError_some_iff e).mp hb
      exact absurd hfe (h fe)

/-- C13 (amended) at concrete inputs: `errQuorumLost` under a wrapper is fatal
with a `fatalError` as root cause, and a wrapped `errCreatingCluster` is not. -/
theorem C13_isFatalError_values_witness :
    (∃ e fe, some (GoError.withCause "reconcile" (.fatal errQuorumLost)) = some e ∧
      rootCause e = .fatal fe) ∧
    isFatalError (some (.withCause "create" errCreatingCluster)) = false :=
  ⟨C13_isFatalError_values.1 (some (.withCause "reconcile" (.fatal errQuorumLost))) rfl,
   C13_isFatalError_values.2.2.2.2.2 (.withCause "create" errCreatingCluster)
     (fun fe h => by simp [rootCause, errCreatingCluster] at h)⟩

/-- C14: classification is invariant under wrapping: an error wrapped in any
number of cause-carrying wrappers is classified as the error itself; so
`errQuorumLost` under any wrappers is fatal and `errCreatingCluster` under any
wrappers is not. -/
theorem C14_wrapping_invariant (ms : List String) :
    (∀ e, isFatalError (some (wrapAll ms e)) = isFatalError (some e)) ∧
    (∀ m e, isFatalError (some (.withCause m e)) = isFatalError (some e)) ∧
    isFatalError (some (wrapAll ms (.fatal errQuorumLost))) = true ∧
    isFatalError (some (wrapAll ms errCreatingCluster)) = false := by
  refine ⟨isFatalError_wrapAll ms, fun m e => isFatalError_wrapAll [m] e, ?_, ?_⟩
  · rw [isFatalError_wrapAll]; rfl
  · rw [isFatalError_wrapAll]; rfl

/-- C15: whatever the API answers, `cleanupClusterResources` issues exactly
four delete calls, in this order: the disruption budget named after the
cluster, the pods selected by the label `etcd_cluster=<name>`, the peer
service named after the cluster, the client service; all in the namespace of
the resource and all with the grace period `terminationGracePeriod`, which is 5. -/
theorem C15_cleanup_calls (env : Env) (st : State) (clus : EtcdCluster) :
    (cleanupClusterResources env st clus).1.calls
      = st.calls ++
        [ Call.deletePodDisruptionBudget clus.Namespace clus.Name terminationGracePeriod,
          Call.deletePodCollection clus.Namespace terminationGracePeriod
            ("etcd_cluster=" ++ clus.Name),
          Call.deleteService clus.Namespace clus.Name terminationGracePeriod,
          Call.deleteService clus.Namespace (env.clientServiceName clus.Name)
            terminationGracePeriod ] ∧
    terminationGracePeriod = 5 := by
  refine ⟨?_, rfl⟩
  rw [cleanup_calls]
  rfl

theorem contains_self_append (acc x s a : String) (h : Contains acc x) :
    Contains (acc ++ s ++ a) x := by
  obtain ⟨pre, post, rfl⟩ := h
  exact ⟨pre, post ++ s ++ a, by simp [String.append_assoc]⟩

theorem contains_intercalate_go (sep : String) (l : List String) :
    ∀ acc x, (Contains acc x ∨ x ∈ l) → Contains (String.intercalate.go acc sep l) x := by
  induction l with
  | nil =>
    intro acc x h
    rcases h with h | h
    · simpa [String.intercalate.go] using h
    · simp at h
  | cons a l ih =>
    intro acc x h
    simp only [String.intercalate.go]
    apply ih
    rcases h with h | h
    · exact Or.inl (contains_self_append acc x sep a h)
    · rcases List.mem_cons.mp h with rfl | h
      · exact Or.inl ⟨acc ++ sep, "", by simp⟩
      · exact Or.inr h

theorem contains_intercalate (sep : String) (l : List String) (x : String) (h : x ∈ l) :
    Contains (String.intercalate sep l) x := by
  cases l with
  | nil => simp at h
  | cons a l =>
    simp only [String.intercalate]
    apply contains_intercalate_go
    rcases List.mem_cons.mp h with rfl | h
    · exact Or.inl ⟨"", "", by simp⟩
    · exact Or.inr h

theorem cleanup_err (env : Env) (st : State) (clus : EtcdCluster) :
    (cleanupClusterResources env st clus).2
      = if (cleanupAnswers env st clus).reduceOption = [] then none
        else some (String.intercalate ", " (cleanupAnswers env st clus).reduceOption) := by
  simp only [cleanupClusterResources, State.api, cleanupAnswers]
  cases env.apiError st.calls
      (.deletePodDisruptionBudget clus.Namespace clus.Name terminationGracePeriod) <;>
  cases env.apiError
      (st.calls ++ [.deletePodDisruptionBudget clus.Namespace clus.Name terminationGracePeriod])
      (.deletePodCollection clus.Namespace terminationGracePeriod
        ("etcd_cluster=" ++ clus.Name)) <;>
  cases env.apiError
      (st.calls ++ [.deletePodDisruptionBudget clus.Namespace clus.Name terminationGracePeriod]
        ++ [.deletePodCollection clus.Namespace terminationGracePeriod
              ("etcd_cluster=" ++ clus.Name)])
      (.deleteService clus.Namespace clus.Name terminationGracePeriod) <;>
  cases env.apiError
      (st.calls ++ [.deletePodDisruptionBudget clus.Namespace clus.Name terminationGracePeriod]
        ++ [.deletePodCollection clus.Namespace terminationGracePeriod
              ("etcd_cluster=" ++ clus.Name)]
        ++ [.deleteService clus.Namespace clus.Name terminationGracePeriod])
      (.deleteService clus.Namespace (env.clientServiceName clus.Name)
        terminationGracePeriod) <;>
  simp [appendErr, List.reduceOption]

/-- C16: `cleanupClusterResources` returns no error exactly when all four
deletions succeed; otherwise it returns one error whose text is the texts of
the failed deletions, in the order of the attempts, joined by ", ", so that the
text of every failed deletion occurs in it. -/
theorem C16_cleanup_error (env : Env) (st : State) (clus : EtcdCluster) :
    ((cleanupClusterResources env st clus).2 = none ↔
      ∀ a ∈ cleanupAnswers env st clus, a = none) ∧
    (cleanupClusterResources env st clus).2
      = (if (cleanupAnswers env st clus).reduceOption = [] then none
         else some (String.intercalate ", " (cleanupAnswers env st clus).reduceOption)) ∧
    (∀ m, some m ∈ cleanupAnswers env st clus →
      ∃ msg, (cleanupClusterResources env st clus).2 = some msg ∧ Contains msg m) := by
  have hnil : (cleanupAnswers env st clus).reduceOption = [] ↔
      ∀ a ∈ cleanupAnswers env st clus, a = none := by
    constructor
    · intro h a ha
      cases a with
      | none => rfl
      | some x =>
        have hx : x ∈ (cleanupAnswers env st clus).reduceOption :=
          List.reduceOption_mem_iff.mpr ha
        rw [h] at hx
        exact absurd hx (List.not_mem_nil x)
    · intro h
      apply List.eq_nil_iff_forall_not_mem.mpr
      intro x hx
      have := h (some x) (List.reduceOption_mem_iff.mp hx)
      exact Option.some_ne_none x this
  refine ⟨?_, cleanup_err env st clus, ?_⟩
  · rw [cleanup_err]
    split
    · rename_i h; simpa using hnil.mp h
    · rename_i h
      simp only [false_iff, reduceCtorEq]
      exact fun hall => h (hnil.mpr hall)
  · intro m hm
    have hmem : m ∈ (cleanupAnswers env st clus).reduceOption :=
      List.reduceOption_mem_iff.mpr hm
    refine ⟨String.intercalate ", " (cleanupAnswers env st clus).reduceOption, ?_,
      contains_intercalate _ _ _ hmem⟩
    rw [cleanup_err, if_neg]
    intro h
    rw [h] at hmem
    simp at hmem

/-- C16 at a concrete input: the two service deletions fail, the other two
succeed, and the error joins the two texts. -/
theorem C16_cleanup_error_witness :
    (cleanupClusterResources failingEnv New db1).2
      = some "service db1 not found, service db1-client not found" ∧
    (∃ msg, (cleanupClusterResources failingEnv New db1).2 = some msg ∧
      Contains msg "service db1-client not found") :=
  ⟨(C16_cleanup_error failingEnv New db1).2.1.trans (by decide),
   (C16_cleanup_error failingEnv New db1).2.2 "service db1-client not found" (by decide)⟩

/-- C17: on a managed resource with status Failed and policy Recreate, for an
event of any type and whatever the cleanup returns, the store update is
attempted after the four deletions and the result is `(false, e)` where `e` is
what the store update answers: the error when it fails, nil when it succeeds;
the key of the resource is out of the registry in both cases. -/
theorem C17_recreate_result (env : Env) (st : State) (event : Event)
    (hm : env.managed event.Object = true)
    (hf : event.Object.Status.IsFailed = true)
    (hp : event.Object.Spec.FailurePolicy = FailurePolicyRecreate) :
    (handleClusterEvent env st event).ignored = false ∧
    (handleClusterEvent env st event).err
      = env.apiError
          (st.calls ++ recreateDeleteCalls st event.Object ++ cleanupCalls env event.Object)
          (Call.updateEtcdCluster event.Object.Namespace
              { event.Object with Status := ClusterStatus.empty }) ∧
    (handleClusterEvent env st event).state.calls
      = st.calls ++ recreateDeleteCalls st event.Object ++ cleanupCalls env event.Object
        ++ [Call.updateEtcdCluster event.Object.Namespace
              { event.Object with Status := ClusterStatus.empty }] ∧
    (handleClusterEvent env st event).state.clusters
      = st.clusters.erase (getNamespacedName event.Object) ∧
    getNamespacedName event.Object ∉ (handleClusterEvent env st event).state.clusters := by
  obtain ⟨h1, h2, -, h4, h5⟩ := recreate_shape env st event hm hf hp
  refine ⟨h4, h5, h1, h2, ?_⟩
  rw [h2]
  simp [AList.mem_erase]

/-- C17 at a concrete input: the cleanup fails and the store update fails with
"conflict"; the result carries "conflict" and `ns1/db1` is out of the registry. -/
theorem C17_recreate_result_witness :
    (cleanupClusterResources failingEnv stateWithDb1 (db1Failed "Recreate")).2 ≠ none ∧
    (handleClusterEvent failingEnv stateWithDb1 ⟨Modified, db1Failed "Recreate"⟩).ignored
      = false ∧
    (handleClusterEvent failingEnv stateWithDb1 ⟨Modified, db1Failed "Recreate"⟩).err
      = some "conflict" ∧
    getNamespacedName (db1Failed "Recreate")
      ∉ (handleClusterEvent failingEnv stateWithDb1
          ⟨Modified, db1Failed "Recreate"⟩).state.clusters :=
  have h := C17_recreate_result failingEnv stateWithDb1 ⟨Modified, db1Failed "Recreate"⟩
    (by decide) (by decide) (by decide)
  ⟨by decide, h.1, h.2.1.trans rfl, h.2.2.2.2⟩

theorem append_sep_inj (c : Char) :
    ∀ l₁ l₂ r₁ r₂ : List Char, c ∉ l₁ → c ∉ l₂ → l₁ ++ c :: r₁ = l₂ ++ c :: r₂ →
      l₁ = l₂ ∧ r₁ = r₂ := by
  intro l₁
  induction l₁ with
  | nil =>
    intro l₂ r₁ r₂ _ h₂ h
    cases l₂ with
    | nil => simpa using h
    | cons x l₂ =>
      simp only [List.nil_append, List.cons_append, List.cons.injEq] at h
      exact absurd (h.1 ▸ List.mem_cons_self _ _) h₂
  | cons x l₁ ih =>
    intro l₂ r₁ r₂ h₁ h₂ h
    cases l₂ with
    | nil =>
      simp only [List.nil_append, List.cons_append, List.cons.injEq] at h
      exact absurd (h.1 ▸ List.mem_cons_self _ _) h₁
    | cons y l₂ =>
      simp only [List.cons_append, List.cons.injEq] at h
      obtain ⟨rfl, h⟩ := h
      obtain ⟨e₁, e₂⟩ := ih l₂ r₁ r₂ (fun hc => h₁ (List.mem_cons_of_mem _ hc))
        (fun hc => h₂ (List.mem_cons_of_mem _ hc)) h
      exact ⟨by rw [e₁], e₂⟩

/-- C18 as stated fails: the resources `(a/b, c)` and `(a, b/c)` have the same
namespaced name `a/b/c` and different namespaces. -/
theorem C18_counterexample :
    ¬ (getNamespacedName slashNamespaceDb = getNamespacedName slashNameDb ↔
        slashNamespaceDb.Namespace = slashNameDb.Namespace ∧
        slashNamespaceDb.Name = slashNameDb.Name) := by
  decide

/-- C18 (amended): for two resources whose namespaces do not contain the
character `/`, the namespaced names are equal exactly when the namespaces are
equal and the names are equal. -/
theorem C18_namespaced_name_injective (a b : EtcdCluster)
    (ha : '/' ∉ a.Namespace.toList) (hb : '/' ∉ b.Namespace.toList) :
    getNamespacedName a = getNamespacedName b ↔
      a.Namespace = b.Namespace ∧ a.Name = b.Name := by
  constructor
  · intro h
    have hd := congrArg String.data h
    simp only [getNamespacedName, String.data_append, List.append_assoc] at hd
    simp only [List.singleton_append] at hd
    obtain ⟨e₁, e₂⟩ := append_sep_inj '/' _ _ _ _ ha hb hd
    exact ⟨String.ext e₁, String.ext e₂⟩
  · rintro ⟨h₁, h₂⟩
    simp [getNamespacedName, h₁, h₂]

/-- C18 (amended) at a concrete input: `db1` and the same resource with another spec. -/
theorem C18_namespaced_name_injective_witness :
    getNamespacedName db1 = getNamespacedName db1Invalid ↔
      db1.Namespace = db1Invalid.Namespace ∧ db1.Name = db1Invalid.Name :=
  C18_namespaced_name_injective db1 db1Invalid (by decide) (by decide)

/-- The registry after one event is the registry before, or the registry before
without the key of the event, or the registry before with a new entry for the
key of the event, which was absent. -/
theorem step_clusters_cases (env : Env) (st : State) (e : Event) :
    (handleClusterEvent env st e).state.clusters = st.clusters ∨
    (handleClusterEvent env st e).state.clusters
      = st.clusters.erase (getNamespacedName e.Object) ∨
    (getNamespacedName e.Object ∉ st.clusters ∧
      ∃ nc, (handleClusterEvent env st e).state.clusters
        = st.clusters.insert (getNamespacedName e.Object) nc) := by
  cases hm : env.managed e.Object
  · simp [handleClusterEvent, hm]
  cases hf : e.Object.Status.IsFailed
  · cases hv : env.validate (env.setDefaults e.Object.Spec) with
    | some m => simp [handleClusterEvent, hm, hf, hv]
    | none =>
      by_cases ha : e.Typ = Added
      · cases hl : st.clusters.lookup (getNamespacedName e.Object) with
        | some inst => simp [handleClusterEvent, hm, hf, hv, ha, hl]
        | none =>
          have hin : getNamespacedName e.Object ∉ st.clusters := AList.lookup_eq_none.mp hl
          cases hn : env.clusterNew st.calls (makeClusterConfig env)
              (e.Object.SetDefaults env) with
          | none => simp [handleClusterEvent, hm, hf, hv, ha, hl, hn, State.tell]
          | some nc =>
            right; right
            refine ⟨hin, nc, ?_⟩
            simp [handleClusterEvent, hm, hf, hv, ha, hl, hn, State.tell]
      · by_cases hmod : e.Typ = Modified
        · cases hl : st.clusters.lookup (getNamespacedName e.Object) <;>
            simp [handleClusterEvent, hm, hf, hv, hmod, hl, State.tell,
              added_ne_modified.symm]
        · by_cases hd : e.Typ = Deleted
          · cases hl : st.clusters.lookup (getNamespacedName e.Object) <;>
              simp [handleClusterEvent, hm, hf, hv, hd, hl, State.tell,
                modified_ne_deleted.symm, added_ne_deleted.symm]
          · simp [handleClusterEvent, hm, hf, hv, ha, hmod, hd]
  · by_cases hp : e.Object.Spec.FailurePolicy = FailurePolicyRecreate
    · exact Or.inr (Or.inl (recreate_shape env st e hm hf hp).2.1)
    · by_cases hd : e.Typ = Deleted
      · simp [handleClusterEvent, hm, hf, hp, hd]
      · simp [handleClusterEvent, hm, hf, hp, hd]

/-- C19: comparing the registry before and after one event, for every key `k`:
if `k` is absent before and present after, the event is an Added event for `k`
on a non-Failed resource with result `(false, nil)`; if `k` is present before
and absent after, the event is for `k` and is a Deleted event or an event on a
Failed resource with policy Recreate; if `k` is present before and after, it
maps to the same handle. -/
theorem C19_registry_frame (env : Env) (st : State) (event : Event) (k : String) :
    (k ∉ st.clusters → k ∈ (handleClusterEvent env st event).state.clusters →
      getNamespacedName event.Object = k ∧ event.Typ = Added ∧
      event.Object.Status.IsFailed = false ∧
      (handleClusterEvent env st event).ignored = false ∧
      (handleClusterEvent env st event).err = none) ∧
    (k ∈ st.clusters → k ∉ (handleClusterEvent env st event).state.clusters →
      getNamespacedName event.Object = k ∧ DeletedOrRecreate event) ∧
    (k ∈ st.clusters → k ∈ (handleClusterEvent env st event).state.clusters →
      (handleClusterEvent env st event).state.clusters.lookup k = st.clusters.lookup k) := by
  refine ⟨?_, ?_, ?_⟩
  · intro hb ha
    rcases (step_mem_iff env st event k).mp ha with ⟨h, -⟩ | ⟨hkey, hacc⟩
    · exact absurd h hb
    · exact ⟨hkey, hacc⟩
  · intro hb ha
    by_cases hr : getNamespacedName event.Object = k ∧ RemovalEvent env event
    · obtain ⟨hkey, -, hrem⟩ := hr
      refine ⟨hkey, ?_⟩
      rcases hrem with h | ⟨hd, -⟩
      · exact Or.inr h
      · exact Or.inl hd
    · exact absurd ((step_mem_iff env st event k).mpr (Or.inl ⟨hb, hr⟩)) ha
  · intro hb ha
    rcases step_clusters_cases env st event with h | h | ⟨hin, nc, h⟩
    · rw [h]
    · rw [h] at ha ⊢
      exact AList.lookup_erase_ne (AList.mem_erase.mp ha).1
    · rw [h]
      have hne : k ≠ getNamespacedName event.Object := fun heq => hin (heq ▸ hb)
      exact AList.lookup_insert_ne hne

/-- C19 at a concrete input: a Deleted event removes the registered `ns1/db1`. -/
theorem C19_registry_frame_witness :
    getNamespacedName db1 = "ns1/db1" ∧ DeletedOrRecreate ⟨Deleted, db1⟩ :=
  (C19_registry_frame demoEnv stateWithDb1 ⟨Deleted, db1⟩ "ns1/db1").2.1
    (by decide) (by decide)

/-- C20, the code at the failing input: from the empty registry with the gauge
at 0, after an Added event for `ns1/db1` the registry has one entry and
`clustersTotal` is 1; a Deleted event on the resource as Failed with policy
Manual then empties the registry and leaves `clustersTotal` at 1, while the
same Deleted event with policy Recreate, or on the healthy resource, empties
the registry and brings `clustersTotal` back to 0. -/
theorem C20_gauge_not_decremented :
    (handleEvents demoEnv New [⟨Added, db1⟩]).clusters.entries.length = 1 ∧
    (handleEvents demoEnv New [⟨Added, db1⟩]).metrics.clustersTotal = 1 ∧
    (handleEvents demoEnv New (addedThenFailedDeleted "Manual")).clusters.entries.length = 0 ∧
    (handleEvents demoEnv New (addedThenFailedDeleted "Manual")).metrics.clustersTotal = 1 ∧
    (handleEvents demoEnv New (addedThenFailedDeleted "Recreate")).clusters.entries.length = 0 ∧
    (handleEvents demoEnv New (addedThenFailedDeleted "Recreate")).metrics.clustersTotal = 0 ∧
    (handleEvents demoEnv New [⟨Added, db1⟩, ⟨Deleted, db1⟩]).clusters.entries.length = 0 ∧
    (handleEvents demoEnv New [⟨Added, db1⟩, ⟨Deleted, db1⟩]).metrics.clustersTotal = 0 := by
  decide

end EtcdOperator
